import Mathlib

/-!
# unifi-dynamic-dns: a verification development for `main.go`

The program is a single Go file.  Its `run` function parses the embedded TLS
key, reads four environment variables, builds a Terraform Cloud client,
registers one handler for `GET /nic/update`, starts a TLS listener on a
goroutine and then waits for either SIGINT or a listener error.

Modelling conventions

* A Go `string` is a Lean `String`; `[]byte(body)` is the identity and
  `fmt.Sprintf("good %s", ip)` is `"good " ++ ip`.
* A Go `error` value is an `Option GoError` (`none` is `nil`).
* Calls into libraries (`pem`, `x509`, `os`, `tfe`, `net/http`, `slog`) are
  taken as parameters that give the call's result, and every call the program
  makes is recorded, in program order, in a list of effects.
* A nil pointer dereference is the outcome `nilDereference`.
* The `context.Context` arguments and the deferred `cancel` calls have no
  effect on what is stated here and are left out.
-/

namespace UnifiDynamicDns

/-! ## Errors -/

/-- Go `error` values that are not nil. -/
inductive GoError where
  /-- Go `errors.New(msg)` -/
  | errorsNew (msg : String)
  /-- Go `fmt.Errorf(msg ++ "%w", cause)` -/
  | wrapped (msg : String) (cause : GoError)
  /-- An error made by a library (transport, remote side, listener, deadline). -/
  | library (msg : String)
  deriving DecidableEq, Repr

/-- The `Error()` method. -/
def GoError.Error : GoError → String
  | .errorsNew msg => msg
  | .wrapped msg cause => msg ++ cause.Error
  | .library msg => msg

/-! ## The Terraform Cloud client (`github.com/hashicorp/go-tfe`) -/

/-- The fields of `tfe.VariableUpdateOptions` that the program sets
(`tfe.String(s)` is `some s`); all other fields stay at their zero value. -/
structure VariableUpdateOptions where
  Value : Option String
  deriving DecidableEq, Repr

/-- The field of `tfe.Workspace` that the program sets. -/
structure Workspace where
  ID : String
  deriving DecidableEq, Repr

/-- The fields of `tfe.RunCreateOptions` that the program sets. -/
structure RunCreateOptions where
  Message : Option String
  Workspace : Option Workspace
  AutoApply : Option Bool
  deriving DecidableEq, Repr

/-- The two operations of the client that the handler uses.  Each gives the
`error` the call returns (`none` for success); the first return value of both
calls is discarded by the program (`_`). -/
structure TfeClient where
  /-- Go `client.Variables.Update(ctx, workspaceID, variableID, options)` -/
  VariablesUpdate : String → String → VariableUpdateOptions → Option GoError
  /-- Go `client.Runs.Create(ctx, options)` -/
  RunsCreate : RunCreateOptions → Option GoError

/-- A call made on the client, with its arguments. -/
inductive RemoteCall where
  | variablesUpdate (workspaceID variableID : String) (options : VariableUpdateOptions)
  | runsCreate (options : RunCreateOptions)
  deriving DecidableEq, Repr

/-! ## Logging (`log/slog`) -/

/-- A record written through the logger: level, message and the key/value pair. -/
inductive LogRecord where
  | info (msg key value : String)
  | error (msg key value : String)
  deriving DecidableEq, Repr

/-! ## `net/http` request and response writer -/

/-- What the handler reads from `*http.Request`. -/
structure Request where
  /-- Go `r.BasicAuth()`: `some (username, password)` when `ok` is true. -/
  BasicAuth : Option (String × String)
  /-- Go `r.URL.Query()`: the parsed query, a `map[string][]string`. -/
  Query : List (String × List String)
  deriving DecidableEq, Repr

/-- Go `url.Values.Get`: the first value of the key, or `""` when there is none. -/
def Values.Get (v : List (String × List String)) (key : String) : String :=
  match v.lookup key with
  | some (x :: _) => x
  | _ => ""

/-- An `http.ResponseWriter`: the status line once it is written, and the body
bytes written so far. -/
structure ResponseWriter where
  status : Option Nat
  body : String
  deriving DecidableEq, Repr

/-- A fresh writer: nothing written yet. -/
def ResponseWriter.fresh : ResponseWriter := ⟨none, ""⟩

/-- Go `w.WriteHeader(code)`: the first call fixes the status. -/
def ResponseWriter.WriteHeader (w : ResponseWriter) (code : Nat) : ResponseWriter :=
  match w.status with
  | none => ⟨some code, w.body⟩
  | some _ => w

/-- Go `w.Write(b)`: writes the header with 200 if none was written, then the bytes. -/
def ResponseWriter.Write (w : ResponseWriter) (b : String) : ResponseWriter :=
  let w1 := w.WriteHeader 200
  ⟨w1.status, w1.body ++ b⟩

def StatusOK : Nat := 200

def StatusBadRequest : Nat := 400

/-- The function `respond` (main.go 162-167). -/
def respond (w : ResponseWriter) (body : String) : ResponseWriter :=
  (w.WriteHeader StatusOK).Write body

/-! ## The `GET /nic/update` handler (main.go 80-118) -/

/-- The variables of `run` that the handler closure captures. -/
structure HandlerEnv where
  unifiUsername : String
  unifiPassword : String
  terraformCloudClient : TfeClient

/-- What one invocation of the handler does: the final state of the response
writer, the remote calls in the order they were made, and the log records. -/
structure Handled where
  w : ResponseWriter
  calls : List RemoteCall
  logs : List LogRecord
  deriving DecidableEq, Repr

/-- The handler closure registered for `GET /nic/update`. -/
def handler (env : HandlerEnv) (w : ResponseWriter) (r : Request) : Handled :=
  match r.BasicAuth with
  | none => ⟨w.WriteHeader StatusBadRequest, [], []⟩
  | some (username, password) =>
    if username ≠ env.unifiUsername ∨ password ≠ env.unifiPassword then
      ⟨respond w "badauth", [], []⟩
    else
      let ip := Values.Get r.Query "myip"
      if ip = "" then
        ⟨respond w "911", [], []⟩
      else
        let updateCall := RemoteCall.variablesUpdate "ws-KidBzbXUjLSXKYgH" "var-ovgRSmpM1gLBgywH" ⟨some ip⟩
        match env.terraformCloudClient.VariablesUpdate "ws-KidBzbXUjLSXKYgH" "var-ovgRSmpM1gLBgywH" ⟨some ip⟩ with
        | some _ => ⟨respond w "911", [updateCall], []⟩
        | none =>
          let createOptions : RunCreateOptions :=
            ⟨some "Triggered via dynamic dns.", some ⟨"ws-KidBzbXUjLSXKYgH"⟩, some true⟩
          match env.terraformCloudClient.RunsCreate createOptions with
          | some _ => ⟨respond w "911", [updateCall, RemoteCall.runsCreate createOptions], []⟩
          | none =>
            ⟨respond w ("good " ++ ip), [updateCall, RemoteCall.runsCreate createOptions],
              [LogRecord.info "success" "myip" ip]⟩

/-! ## Startup and lifecycle: `run` (main.go 40-160) and `main` (main.go 31-38) -/

/-- The field of `pem.Block` that the program reads. -/
structure Block where
  Bytes : List UInt8
  deriving DecidableEq, Repr

/-- A parsed private key, as handed to `tls.Certificate`. -/
structure PrivateKey where
  der : List UInt8
  deriving DecidableEq, Repr

/-- Which case of the `select` at the end of `run` fires. -/
inductive Selected where
  /-- The case `<-ctx.Done()`: SIGINT arrived. -/
  | ctxDone
  /-- The case `err := <-errCh`: the listener goroutine sent the result of
  `srv.ListenAndServeTLS`. -/
  | errCh (err : Option GoError)
  deriving DecidableEq, Repr

/-- Everything outside the program that `run` depends on. -/
structure World where
  /-- The embedded file `tls/key.pem`. -/
  tlsKey : List UInt8
  /-- The embedded file `tls/cert.pem`. -/
  tlsCert : List UInt8
  /-- Go `pem.Decode`: its first result, `none` when it is the nil block. -/
  pemDecode : List UInt8 → Option Block
  /-- Go `x509.ParsePKCS8PrivateKey` -/
  ParsePKCS8PrivateKey : List UInt8 → Except GoError PrivateKey
  /-- The process environment: `none` for a variable that is not set. -/
  environ : String → Option String
  /-- Go `tfe.NewClient` on a `tfe.Config` with this address and this token. -/
  NewClient : String → String → Except GoError TfeClient
  /-- The case of the final `select` that fires. -/
  selected : Selected
  /-- The result of `srv.Shutdown(shutdownCtx)`. -/
  Shutdown : Option GoError
  /-- The result of `srv.Close()`. -/
  Close : Option GoError

/-- Go `os.Getenv`: the value of the variable, `""` when it is not set. -/
def Getenv (environ : String → Option String) (key : String) : String :=
  (environ key).getD ""

/-- Go `time.Second`, in nanoseconds. -/
def Second : Nat := 1000000000

/-- What `run` does to the outside, in program order. -/
inductive Effect where
  | getenv (key : String)
  | newClient (address token : String)
  | handleFunc (pattern : String)
  | log (record : LogRecord)
  /-- Go `signal.NotifyContext(ctx, syscall.SIGINT)` -/
  | notifySIGINT
  /-- The goroutine that sends `srv.ListenAndServeTLS("", "")` to `errCh`, with the
  server's address and its one certificate. -/
  | goListenAndServeTLS (addr : String) (certificate : List UInt8) (key : PrivateKey)
  /-- Go `srv.Shutdown` under a context with this timeout (nanoseconds). -/
  | shutdown (timeout : Nat)
  | close
  deriving DecidableEq, Repr

/-- How a Go function call ends. -/
inductive Outcome where
  | returned (err : Option GoError)
  /-- A run-time panic: invalid memory address or nil pointer dereference. -/
  | nilDereference
  deriving DecidableEq, Repr

/-- The result of `run`: how it ended, its effects, and the handlers that were
registered on the mux (pattern and captured variables). -/
structure RunResult where
  outcome : Outcome
  effects : List Effect
  mux : List (String × HandlerEnv)

/-- The `select` at the end of `run` (main.go 146-159), given the effects and
the mux so far. -/
def runSelect (e : World) (effects : List Effect) (mux : List (String × HandlerEnv)) :
    RunResult :=
  match e.selected with
  | .ctxDone =>
    let effects1 := effects ++
      [.log (.info "shutting down gracefully" "reason" "context canceled"),
       .shutdown (15 * Second)]
    match e.Shutdown with
    | some err =>
      ⟨.returned e.Close,
        effects1 ++ [.log (.error "shutting down forcefully" "error" err.Error), .close], mux⟩
    | none => ⟨.returned none, effects1, mux⟩
  | .errCh err => ⟨.returned err, effects, mux⟩

/-- The function `run` (main.go 40-160). -/
def run (e : World) : RunResult :=
  match e.pemDecode e.tlsKey with
  | none => ⟨.nilDereference, [], []⟩
  | some privBlock =>
  match e.ParsePKCS8PrivateKey privBlock.Bytes with
  | .error err => ⟨.returned (some (.wrapped "failed parsing tls private key: " err)), [], []⟩
  | .ok privateKey =>
  let pubBlock := e.pemDecode e.tlsCert
  let unifiUsername := Getenv e.environ "UNIFI_USERNAME"
  let effects1 := [Effect.getenv "UNIFI_USERNAME"]
  if unifiUsername = "" then
    ⟨.returned (some (.errorsNew "UNIFI_USERNAME must be provided")), effects1, []⟩
  else
  let unifiPassword := Getenv e.environ "UNIFI_PASSWORD"
  let effects2 := effects1 ++ [.getenv "UNIFI_PASSWORD"]
  if unifiPassword = "" then
    ⟨.returned (some (.errorsNew "UNIFI_PASSWORD must be provided")), effects2, []⟩
  else
  let terraformCloudApiToken := Getenv e.environ "TERRAFORM_CLOUD_API_TOKEN"
  let effects3 := effects2 ++ [.getenv "TERRAFORM_CLOUD_API_TOKEN"]
  if terraformCloudApiToken = "" then
    ⟨.returned (some (.errorsNew "TERRAFORM_CLOUD_API_TOKEN must be provided")), effects3, []⟩
  else
  let terraformCloudAddress := Getenv e.environ "TERRAFORM_CLOUD_ADDRESS"
  let effects4 := effects3 ++ [.getenv "TERRAFORM_CLOUD_ADDRESS"]
  if terraformCloudAddress = "" then
    ⟨.returned (some (.errorsNew "TERRAFORM_CLOUD_ADDRESS must be provided")), effects4, []⟩
  else
  let effects5 := effects4 ++ [.newClient terraformCloudAddress terraformCloudApiToken]
  match e.NewClient terraformCloudAddress terraformCloudApiToken with
  | .error err =>
    ⟨.returned (some (.wrapped "failed creating terraform cloud client: " err)), effects5, []⟩
  | .ok terraformCloudClient =>
  let mux := [("GET /nic/update", HandlerEnv.mk unifiUsername unifiPassword terraformCloudClient)]
  let effects6 := effects5 ++ [.handleFunc "GET /nic/update"]
  match pubBlock with
  | none => ⟨.nilDereference, effects6, mux⟩
  | some pubBlock =>
  let effects7 := effects6 ++
    [.log (.info "starting http server" "addr" ":8443"),
     .notifySIGINT,
     .goListenAndServeTLS ":8443" pubBlock.Bytes privateKey]
  runSelect e effects7 mux

/-- How the process ends: its exit status and what `main` logs. -/
structure Exit where
  status : Nat
  logs : List LogRecord
  deriving DecidableEq, Repr

/-- The function `main` (main.go 31-38).  A panic that nothing recovers ends the process
with status 2. -/
def main (e : World) : Exit :=
  match (run e).outcome with
  | .returned (some err) => ⟨1, [.error "startup finished" "error" err.Error]⟩
  | .returned none => ⟨0, []⟩
  | .nilDereference => ⟨2, []⟩

/-! ## Concrete clients, requests and worlds -/

/-- A client whose two calls succeed. -/
def clientOk : TfeClient := ⟨fun _ _ _ => none, fun _ => none⟩

/-- A client whose update call fails. -/
def clientUpdateFails (msg : String) : TfeClient :=
  ⟨fun _ _ _ => some (.library msg), fun _ => none⟩

/-- A client whose update call succeeds and whose run-create call fails. -/
def clientCreateFails (msg : String) : TfeClient :=
  ⟨fun _ _ _ => none, fun _ => some (.library msg)⟩

/-- The request `GET /nic/update?myip=203.0.113.7` of user `unifi`, password `hunter2`. -/
def requestGood : Request :=
  ⟨some ("unifi", "hunter2"), [("hostname", ["home.example.org"]), ("myip", ["203.0.113.7"])]⟩

/-- The same request with a wrong password. -/
def requestBadPassword : Request :=
  ⟨some ("unifi", "letmein"), [("myip", ["203.0.113.7"])]⟩

/-- A request without an `Authorization` header. -/
def requestNoAuth : Request :=
  ⟨none, [("myip", ["203.0.113.7"])]⟩

/-- The request `GET /nic/update?myip=` of user `unifi`. -/
def requestEmptyIp : Request :=
  ⟨some ("unifi", "hunter2"), [("myip", [""])]⟩

/-- A stand-in for `pem.Decode`: no block in an empty input, and otherwise a
block that holds the input. -/
def decodeStandIn (data : List UInt8) : Option Block :=
  if data = [] then none else some ⟨data⟩

/-- A process environment given by a list of settings. -/
def environOf (settings : List (String × String)) : String → Option String :=
  fun key => settings.lookup key

/-- A world in which startup succeeds: both embedded files decode, the key
parses, the four variables are set and the client is built. -/
def worldServing (selected : Selected) (shutdown close : Option GoError) : World :=
  ⟨[48, 130], [48, 131], decodeStandIn, fun der => .ok ⟨der⟩,
    environOf [("UNIFI_USERNAME", "unifi"), ("UNIFI_PASSWORD", "hunter2"),
      ("TERRAFORM_CLOUD_API_TOKEN", "token"),
      ("TERRAFORM_CLOUD_ADDRESS", "https://app.terraform.io")],
    fun _ _ => .ok clientOk, selected, shutdown, close⟩

/-- A world in which `UNIFI_PASSWORD` is set to the empty string and
`TERRAFORM_CLOUD_ADDRESS` is not set. -/
def worldNoPassword : World :=
  ⟨[48, 130], [48, 131], decodeStandIn, fun der => .ok ⟨der⟩,
    environOf [("UNIFI_USERNAME", "unifi"), ("UNIFI_PASSWORD", ""),
      ("TERRAFORM_CLOUD_API_TOKEN", "token")],
    fun _ _ => .ok clientOk, .ctxDone, none, none⟩

/-- A world whose embedded key file is empty, so that it holds no PEM block;
everything else is as in a world that serves. -/
def worldKeyWithoutPem : World :=
  ⟨[], [48, 131], decodeStandIn, fun der => .ok ⟨der⟩,
    environOf [("UNIFI_USERNAME", "unifi"), ("UNIFI_PASSWORD", "hunter2"),
      ("TERRAFORM_CLOUD_API_TOKEN", "token"),
      ("TERRAFORM_CLOUD_ADDRESS", "https://app.terraform.io")],
    fun _ _ => .ok clientOk, .ctxDone, none, none⟩

end UnifiDynamicDns

namespace UnifiDynamicDns

/-! ## The handler -/

/-- The writer after `respond` on a fresh writer: status 200 and the body. -/
theorem respond_fresh (body : String) :
    respond ResponseWriter.fresh body = ⟨some 200, body⟩ := by
  simp [respond, ResponseWriter.fresh, ResponseWriter.WriteHeader, ResponseWriter.Write,
    StatusOK]

/-- C1: a request with the configured credentials and a non-empty `myip` value
`ip`, for which the update call and the run-create call succeed, gets status
200 and the body `"good "` followed by `ip` itself. -/
theorem handler_good (env : HandlerEnv) (r : Request) (username password ip : String)
    (hauth : r.BasicAuth = some (username, password))
    (huser : username = env.unifiUsername) (hpass : password = env.unifiPassword)
    (hquery : Values.Get r.Query "myip" = ip) (hip : ip ≠ "")
    (hupdate : env.terraformCloudClient.VariablesUpdate "ws-KidBzbXUjLSXKYgH"
      "var-ovgRSmpM1gLBgywH" ⟨some ip⟩ = none)
    (hcreate : env.terraformCloudClient.RunsCreate
      ⟨some "Triggered via dynamic dns.", some ⟨"ws-KidBzbXUjLSXKYgH"⟩, some true⟩ = none) :
    (handler env ResponseWriter.fresh r).w = ⟨some 200, "good " ++ ip⟩ := by
  subst huser hpass hquery
  simp [handler, hauth, hip, hupdate, hcreate, respond_fresh]

/-- Witness of C1: the request of `requestGood` against a client that succeeds. -/
theorem handler_good_witness :
    (handler ⟨"unifi", "hunter2", clientOk⟩ ResponseWriter.fresh requestGood).w
      = ⟨some 200, "good 203.0.113.7"⟩ :=
  handler_good ⟨"unifi", "hunter2", clientOk⟩ requestGood "unifi" "hunter2" "203.0.113.7"
    rfl rfl rfl (by decide) (by decide) rfl rfl

/-- C2: a request whose Basic Authentication credentials differ from the
configured ones, in the username or in the password, gets status 200 and the
body `badauth`, and the handler makes no remote call, whatever the query is. -/
theorem handler_badauth (env : HandlerEnv) (r : Request) (username password : String)
    (hauth : r.BasicAuth = some (username, password))
    (hbad : username ≠ env.unifiUsername ∨ password ≠ env.unifiPassword) :
    (handler env ResponseWriter.fresh r).w = ⟨some 200, "badauth"⟩ ∧
      (handler env ResponseWriter.fresh r).calls = [] := by
  simp [handler, hauth, hbad, respond_fresh]

/-- Witness of C2: a wrong password against a client that would succeed. -/
theorem handler_badauth_witness :
    (handler ⟨"unifi", "hunter2", clientOk⟩ ResponseWriter.fresh requestBadPassword).w
        = ⟨some 200, "badauth"⟩ ∧
      (handler ⟨"unifi", "hunter2", clientOk⟩ ResponseWriter.fresh requestBadPassword).calls
        = [] :=
  handler_badauth ⟨"unifi", "hunter2", clientOk⟩ requestBadPassword "unifi" "letmein"
    rfl (Or.inr (by decide))

/-- C3: a request without Basic Authentication credentials gets status 400,
nothing is written to the body, and the handler makes no remote call, whatever
the query is. -/
theorem handler_no_auth (env : HandlerEnv) (r : Request) (hauth : r.BasicAuth = none) :
    (handler env ResponseWriter.fresh r).w = ⟨some 400, ""⟩ ∧
      (handler env ResponseWriter.fresh r).calls = [] := by
  simp [handler, hauth, ResponseWriter.fresh, ResponseWriter.WriteHeader, StatusBadRequest]

/-- Witness of C3: the request of `requestNoAuth`. -/
theorem handler_no_auth_witness :
    (handler ⟨"unifi", "hunter2", clientOk⟩ ResponseWriter.fresh requestNoAuth).w
        = ⟨some 400, ""⟩ ∧
      (handler ⟨"unifi", "hunter2", clientOk⟩ ResponseWriter.fresh requestNoAuth).calls = [] :=
  handler_no_auth ⟨"unifi", "hunter2", clientOk⟩ requestNoAuth rfl

/-- C4: on a request with the configured credentials and a non-empty `myip`
value, the remote calls are the update call alone when it fails, and the update
call followed by one run-create call when it succeeds. -/
theorem handler_call_sequence (env : HandlerEnv) (r : Request) (username password ip : String)
    (hauth : r.BasicAuth = some (username, password))
    (huser : username = env.unifiUsername) (hpass : password = env.unifiPassword)
    (hquery : Values.Get r.Query "myip" = ip) (hip : ip ≠ "") :
    ((env.terraformCloudClient.VariablesUpdate "ws-KidBzbXUjLSXKYgH"
        "var-ovgRSmpM1gLBgywH" ⟨some ip⟩).isSome = true →
      (handler env ResponseWriter.fresh r).calls =
        [.variablesUpdate "ws-KidBzbXUjLSXKYgH" "var-ovgRSmpM1gLBgywH" ⟨some ip⟩]) ∧
    (env.terraformCloudClient.VariablesUpdate "ws-KidBzbXUjLSXKYgH"
        "var-ovgRSmpM1gLBgywH" ⟨some ip⟩ = none →
      (handler env ResponseWriter.fresh r).calls =
        [.variablesUpdate "ws-KidBzbXUjLSXKYgH" "var-ovgRSmpM1gLBgywH" ⟨some ip⟩,
         .runsCreate ⟨some "Triggered via dynamic dns.", some ⟨"ws-KidBzbXUjLSXKYgH"⟩,
           some true⟩]) := by
  subst huser hpass hquery
  constructor
  · intro h
    obtain ⟨err, herr⟩ := Option.isSome_iff_exists.mp h
    simp [handler, hauth, hip, herr]
  · intro h
    cases hc : env.terraformCloudClient.RunsCreate
        ⟨some "Triggered via dynamic dns.", some ⟨"ws-KidBzbXUjLSXKYgH"⟩, some true⟩ <;>
      simp [handler, hauth, hip, h, hc]

/-- Witness of C4: the request of `requestGood` against a client whose
run-create call fails. -/
theorem handler_call_sequence_witness :
    (handler ⟨"unifi", "hunter2", clientCreateFails "503"⟩ ResponseWriter.fresh
        requestGood).calls =
      [.variablesUpdate "ws-KidBzbXUjLSXKYgH" "var-ovgRSmpM1gLBgywH" ⟨some "203.0.113.7"⟩,
       .runsCreate ⟨some "Triggered via dynamic dns.", some ⟨"ws-KidBzbXUjLSXKYgH"⟩,
         some true⟩] :=
  (handler_call_sequence ⟨"unifi", "hunter2", clientCreateFails "503"⟩ requestGood
    "unifi" "hunter2" "203.0.113.7" rfl rfl rfl (by decide) (by decide)).2 rfl

/-- The response to an authenticated request with a non-empty `myip` value
when one of the two remote calls fails, whatever the error is. -/
theorem handler_remote_failure (env : HandlerEnv) (r : Request) (username password ip : String)
    (hauth : r.BasicAuth = some (username, password))
    (huser : username = env.unifiUsername) (hpass : password = env.unifiPassword)
    (hquery : Values.Get r.Query "myip" = ip) (hip : ip ≠ "")
    (hfail : (∃ err, env.terraformCloudClient.VariablesUpdate "ws-KidBzbXUjLSXKYgH"
          "var-ovgRSmpM1gLBgywH" ⟨some ip⟩ = some err) ∨
      (env.terraformCloudClient.VariablesUpdate "ws-KidBzbXUjLSXKYgH"
          "var-ovgRSmpM1gLBgywH" ⟨some ip⟩ = none ∧
        ∃ err, env.terraformCloudClient.RunsCreate
          ⟨some "Triggered via dynamic dns.", some ⟨"ws-KidBzbXUjLSXKYgH"⟩, some true⟩
            = some err)) :
    (handler env ResponseWriter.fresh r).w = ⟨some 200, "911"⟩ ∧
      (handler env ResponseWriter.fresh r).logs = [] := by
  subst huser hpass hquery
  rcases hfail with ⟨err, h⟩ | ⟨h, err, hc⟩
  · simp [handler, hauth, hip, h, respond_fresh]
  · simp [handler, hauth, hip, h, hc, respond_fresh]

/-- C5: on a request with the configured credentials and a non-empty `myip`
value, when the update call fails, or it succeeds and the run-create call
fails, the response is status 200 with body `911`; and the responses under two
clients that both fail, with whatever errors, are the same. -/
theorem handler_911_on_remote_failure (unifiUsername unifiPassword : String)
    (client1 client2 : TfeClient) (r : Request) (username password ip : String)
    (hauth : r.BasicAuth = some (username, password))
    (huser : username = unifiUsername) (hpass : password = unifiPassword)
    (hquery : Values.Get r.Query "myip" = ip) (hip : ip ≠ "")
    (hfail1 : (∃ err, client1.VariablesUpdate "ws-KidBzbXUjLSXKYgH"
          "var-ovgRSmpM1gLBgywH" ⟨some ip⟩ = some err) ∨
      (client1.VariablesUpdate "ws-KidBzbXUjLSXKYgH" "var-ovgRSmpM1gLBgywH" ⟨some ip⟩ = none ∧
        ∃ err, client1.RunsCreate
          ⟨some "Triggered via dynamic dns.", some ⟨"ws-KidBzbXUjLSXKYgH"⟩, some true⟩
            = some err))
    (hfail2 : (∃ err, client2.VariablesUpdate "ws-KidBzbXUjLSXKYgH"
          "var-ovgRSmpM1gLBgywH" ⟨some ip⟩ = some err) ∨
      (client2.VariablesUpdate "ws-KidBzbXUjLSXKYgH" "var-ovgRSmpM1gLBgywH" ⟨some ip⟩ = none ∧
        ∃ err, client2.RunsCreate
          ⟨some "Triggered via dynamic dns.", some ⟨"ws-KidBzbXUjLSXKYgH"⟩, some true⟩
            = some err)) :
    (handler ⟨unifiUsername, unifiPassword, client1⟩ ResponseWriter.fresh r).w
        = ⟨some 200, "911"⟩ ∧
      (handler ⟨unifiUsername, unifiPassword, client1⟩ ResponseWriter.fresh r).w
        = (handler ⟨unifiUsername, unifiPassword, client2⟩ ResponseWriter.fresh r).w := by
  have h1 := handler_remote_failure ⟨unifiUsername, unifiPassword, client1⟩ r username password
    ip hauth huser hpass hquery hip hfail1
  have h2 := handler_remote_failure ⟨unifiUsername, unifiPassword, client2⟩ r username password
    ip hauth huser hpass hquery hip hfail2
  exact ⟨h1.1, h1.1.trans h2.1.symm⟩

/-- Witness of C5: an update that fails with one error and a run-create that
fails with another give the same response. -/
theorem handler_911_on_remote_failure_witness :
    (handler ⟨"unifi", "hunter2", clientUpdateFails "connection refused"⟩
        ResponseWriter.fresh requestGood).w = ⟨some 200, "911"⟩ ∧
      (handler ⟨"unifi", "hunter2", clientUpdateFails "connection refused"⟩
        ResponseWriter.fresh requestGood).w =
      (handler ⟨"unifi", "hunter2", clientCreateFails "unauthorized"⟩
        ResponseWriter.fresh requestGood).w :=
  handler_911_on_remote_failure "unifi" "hunter2" (clientUpdateFails "connection refused")
    (clientCreateFails "unauthorized") requestGood "unifi" "hunter2" "203.0.113.7"
    rfl rfl rfl (by decide) (by decide) (Or.inl ⟨_, rfl⟩) (Or.inr ⟨rfl, _, rfl⟩)

/-- C6: a request with the configured credentials whose query has no `myip`
key, or has the empty string as the first `myip` value, gets status 200 and the
body `911`, and the handler makes no remote call. -/
theorem handler_911_on_missing_ip (env : HandlerEnv) (r : Request) (username password : String)
    (hauth : r.BasicAuth = some (username, password))
    (huser : username = env.unifiUsername) (hpass : password = env.unifiPassword)
    (hquery : r.Query.lookup "myip" = none ∨
      ∃ others, r.Query.lookup "myip" = some ("" :: others)) :
    (handler env ResponseWriter.fresh r).w = ⟨some 200, "911"⟩ ∧
      (handler env ResponseWriter.fresh r).calls = [] := by
  subst huser hpass
  have hget : Values.Get r.Query "myip" = "" := by
    rcases hquery with h | ⟨others, h⟩ <;> simp [Values.Get, h]
  simp [handler, hauth, hget, respond_fresh]

/-- Witness of C6: the request of `requestEmptyIp`, whose `myip` value is empty. -/
theorem handler_911_on_missing_ip_witness :
    (handler ⟨"unifi", "hunter2", clientOk⟩ ResponseWriter.fresh requestEmptyIp).w
        = ⟨some 200, "911"⟩ ∧
      (handler ⟨"unifi", "hunter2", clientOk⟩ ResponseWriter.fresh requestEmptyIp).calls = [] :=
  handler_911_on_missing_ip ⟨"unifi", "hunter2", clientOk⟩ requestEmptyIp "unifi" "hunter2"
    rfl rfl rfl (Or.inr ⟨[], by decide⟩)

/-- C7: on every request on which the handler makes a remote call, the first
call is the update call on workspace `ws-KidBzbXUjLSXKYgH`, variable
`var-ovgRSmpM1gLBgywH`, with the request's `myip` string as the value; nothing
follows it when that call, on these arguments, returns an error, and otherwise
exactly one call follows, the run-create call on the same workspace with
message `Triggered via dynamic dns.` and auto-apply true. -/
theorem handler_call_arguments (env : HandlerEnv) (r : Request)
    (hcalls : (handler env ResponseWriter.fresh r).calls ≠ []) :
    ∃ rest,
      (handler env ResponseWriter.fresh r).calls =
        .variablesUpdate "ws-KidBzbXUjLSXKYgH" "var-ovgRSmpM1gLBgywH"
          ⟨some (Values.Get r.Query "myip")⟩ :: rest ∧
      (rest = [] ∨
        rest = [.runsCreate
          ⟨some "Triggered via dynamic dns.", some ⟨"ws-KidBzbXUjLSXKYgH"⟩, some true⟩]) ∧
      (rest = [] ↔
        (env.terraformCloudClient.VariablesUpdate "ws-KidBzbXUjLSXKYgH"
          "var-ovgRSmpM1gLBgywH" ⟨some (Values.Get r.Query "myip")⟩).isSome = true) := by
  unfold handler at hcalls ⊢
  split at hcalls
  · simp at hcalls
  · rename_i username password hauth
    simp only [hauth]
    split at hcalls
    · simp at hcalls
    · rename_i hcred
      simp only [hcred, if_false]
      simp only at hcalls
      split at hcalls
      · simp at hcalls
      · rename_i hip
        simp only [hip, if_false]
        cases hupdate : env.terraformCloudClient.VariablesUpdate "ws-KidBzbXUjLSXKYgH"
            "var-ovgRSmpM1gLBgywH" ⟨some (Values.Get r.Query "myip")⟩ with
        | some err => exact ⟨[], rfl, Or.inl rfl, by simp⟩
        | none =>
          cases hcreate : env.terraformCloudClient.RunsCreate
              ⟨some "Triggered via dynamic dns.", some ⟨"ws-KidBzbXUjLSXKYgH"⟩, some true⟩ <;>
            exact ⟨_, rfl, Or.inr rfl, by simp⟩

/-- Witness of C7: the two calls of the request of `requestGood` against a
client that succeeds. -/
theorem handler_call_arguments_witness :
    (handler ⟨"unifi", "hunter2", clientOk⟩ ResponseWriter.fresh requestGood).calls =
      [.variablesUpdate "ws-KidBzbXUjLSXKYgH" "var-ovgRSmpM1gLBgywH" ⟨some "203.0.113.7"⟩,
       .runsCreate
         ⟨some "Triggered via dynamic dns.", some ⟨"ws-KidBzbXUjLSXKYgH"⟩, some true⟩] := by
  obtain ⟨rest, hcalls, hrest, hiff⟩ :=
    handler_call_arguments ⟨"unifi", "hunter2", clientOk⟩ requestGood (by decide)
  have hquery : Values.Get requestGood.Query "myip" = "203.0.113.7" := by decide
  rw [hquery] at hcalls
  rcases hrest with hnil | hcreate
  · exact absurd (hiff.mp hnil) (by decide)
  · rw [hcalls, hcreate]

/-! ## Startup and lifecycle -/

/-- The effects of `run` up to the `select`, and its mux, when startup succeeds. -/
theorem run_started (e : World) (privBlock pubBlock : Block) (privateKey : PrivateKey)
    (client : TfeClient)
    (hkey : e.pemDecode e.tlsKey = some privBlock)
    (hparse : e.ParsePKCS8PrivateKey privBlock.Bytes = .ok privateKey)
    (hcert : e.pemDecode e.tlsCert = some pubBlock)
    (huser : Getenv e.environ "UNIFI_USERNAME" ≠ "")
    (hpass : Getenv e.environ "UNIFI_PASSWORD" ≠ "")
    (htoken : Getenv e.environ "TERRAFORM_CLOUD_API_TOKEN" ≠ "")
    (haddr : Getenv e.environ "TERRAFORM_CLOUD_ADDRESS" ≠ "")
    (hclient : e.NewClient (Getenv e.environ "TERRAFORM_CLOUD_ADDRESS")
      (Getenv e.environ "TERRAFORM_CLOUD_API_TOKEN") = .ok client) :
    run e = runSelect e
      [.getenv "UNIFI_USERNAME", .getenv "UNIFI_PASSWORD",
       .getenv "TERRAFORM_CLOUD_API_TOKEN", .getenv "TERRAFORM_CLOUD_ADDRESS",
       .newClient (Getenv e.environ "TERRAFORM_CLOUD_ADDRESS")
         (Getenv e.environ "TERRAFORM_CLOUD_API_TOKEN"),
       .handleFunc "GET /nic/update",
       .log (.info "starting http server" "addr" ":8443"),
       .notifySIGINT,
       .goListenAndServeTLS ":8443" pubBlock.Bytes privateKey]
      [("GET /nic/update",
        ⟨Getenv e.environ "UNIFI_USERNAME", Getenv e.environ "UNIFI_PASSWORD", client⟩)] := by
  simp [run, hkey, hparse, hcert, huser, hpass, htoken, haddr, hclient]

/-- C8: once startup has succeeded, `run` ends in one of three ways.  When the
listener error `err` is received, `run` returns `err` and calls neither
`Shutdown` nor `Close`.  When SIGINT is received, `Shutdown` is called once,
under a timeout of 15 seconds; if it succeeds `run` returns nil, `Close` is not
called and the process exits with status 0; if it fails, the error record
`shutting down forcefully` is logged, `Close` is called once, and `run` returns
what `Close` returns. -/
theorem run_select_outcomes (e : World) (privBlock pubBlock : Block) (privateKey : PrivateKey)
    (client : TfeClient)
    (hkey : e.pemDecode e.tlsKey = some privBlock)
    (hparse : e.ParsePKCS8PrivateKey privBlock.Bytes = .ok privateKey)
    (hcert : e.pemDecode e.tlsCert = some pubBlock)
    (huser : Getenv e.environ "UNIFI_USERNAME" ≠ "")
    (hpass : Getenv e.environ "UNIFI_PASSWORD" ≠ "")
    (htoken : Getenv e.environ "TERRAFORM_CLOUD_API_TOKEN" ≠ "")
    (haddr : Getenv e.environ "TERRAFORM_CLOUD_ADDRESS" ≠ "")
    (hclient : e.NewClient (Getenv e.environ "TERRAFORM_CLOUD_ADDRESS")
      (Getenv e.environ "TERRAFORM_CLOUD_API_TOKEN") = .ok client) :
    ∃ startup : List Effect,
      startup =
        [.getenv "UNIFI_USERNAME", .getenv "UNIFI_PASSWORD",
         .getenv "TERRAFORM_CLOUD_API_TOKEN", .getenv "TERRAFORM_CLOUD_ADDRESS",
         .newClient (Getenv e.environ "TERRAFORM_CLOUD_ADDRESS")
           (Getenv e.environ "TERRAFORM_CLOUD_API_TOKEN"),
         .handleFunc "GET /nic/update",
         .log (.info "starting http server" "addr" ":8443"),
         .notifySIGINT,
         .goListenAndServeTLS ":8443" pubBlock.Bytes privateKey] ∧
      (∀ err, e.selected = .errCh err →
        (run e).outcome = .returned err ∧ (run e).effects = startup) ∧
      (e.selected = .ctxDone → e.Shutdown = none →
        (run e).outcome = .returned none ∧
        (run e).effects = startup ++
          [.log (.info "shutting down gracefully" "reason" "context canceled"),
           .shutdown (15 * 1000000000)] ∧
        main e = ⟨0, []⟩) ∧
      (∀ err, e.selected = .ctxDone → e.Shutdown = some err →
        (run e).outcome = .returned e.Close ∧
        (run e).effects = startup ++
          [.log (.info "shutting down gracefully" "reason" "context canceled"),
           .shutdown (15 * 1000000000),
           .log (.error "shutting down forcefully" "error" err.Error),
           .close]) := by
  refine ⟨_, rfl, ?_, ?_, ?_⟩
  · intro err hsel
    rw [run_started e privBlock pubBlock privateKey client hkey hparse hcert huser hpass
      htoken haddr hclient]
    simp [runSelect, hsel]
  · intro hsel hshut
    have hrun := run_started e privBlock pubBlock privateKey client hkey hparse hcert huser
      hpass htoken haddr hclient
    simp [main, hrun, runSelect, hsel, hshut, Second]
  · intro err hsel hshut
    rw [run_started e privBlock pubBlock privateKey client hkey hparse hcert huser hpass
      htoken haddr hclient]
    simp [runSelect, hsel, hshut, Second]

/-- Witness of C8: SIGINT arrives, `Shutdown` runs out of time and `Close`
succeeds; `run` returns nil after the forced close. -/
theorem run_select_outcomes_witness :
    (run (worldServing .ctxDone (some (.library "context deadline exceeded")) none)).outcome
        = .returned none ∧
      (run (worldServing .ctxDone (some (.library "context deadline exceeded")) none)).effects
        = [.getenv "UNIFI_USERNAME", .getenv "UNIFI_PASSWORD",
           .getenv "TERRAFORM_CLOUD_API_TOKEN", .getenv "TERRAFORM_CLOUD_ADDRESS",
           .newClient "https://app.terraform.io" "token",
           .handleFunc "GET /nic/update",
           .log (.info "starting http server" "addr" ":8443"),
           .notifySIGINT,
           .goListenAndServeTLS ":8443" [48, 131] ⟨[48, 130]⟩,
           .log (.info "shutting down gracefully" "reason" "context canceled"),
           .shutdown 15000000000,
           .log (.error "shutting down forcefully" "error" "context deadline exceeded"),
           .close] := by
  obtain ⟨startup, hstartup, -, -, hforced⟩ :=
    run_select_outcomes (worldServing .ctxDone (some (.library "context deadline exceeded")) none)
      ⟨[48, 130]⟩ ⟨[48, 131]⟩ ⟨[48, 130]⟩ clientOk rfl rfl rfl (by decide) (by decide)
      (by decide) (by decide) rfl
  have h := hforced (.library "context deadline exceeded") rfl rfl
  subst hstartup
  exact h

/-- A variable reads as the empty string exactly when it is unset or empty. -/
theorem Getenv_eq_empty (environ : String → Option String) (key : String) :
    Getenv environ key = "" ↔ environ key = none ∨ environ key = some "" := by
  unfold Getenv
  cases environ key <;> simp

/-- The server was started only after all four variables were read as
non-empty, and its one handler captures the first two. -/
theorem run_listening (e : World) (addr : String) (certificate : List UInt8)
    (key : PrivateKey)
    (hlisten : .goListenAndServeTLS addr certificate key ∈ (run e).effects) :
    ∃ env, (run e).mux = [("GET /nic/update", env)] ∧
      env.unifiUsername = Getenv e.environ "UNIFI_USERNAME" ∧
      env.unifiPassword = Getenv e.environ "UNIFI_PASSWORD" ∧
      env.unifiUsername ≠ "" ∧ env.unifiPassword ≠ "" := by
  unfold run at hlisten ⊢
  cases hkey : e.pemDecode e.tlsKey with
  | none => simp [hkey] at hlisten
  | some privBlock =>
    cases hparse : e.ParsePKCS8PrivateKey privBlock.Bytes with
    | error err => simp [hkey, hparse] at hlisten
    | ok privateKey =>
      by_cases huser : Getenv e.environ "UNIFI_USERNAME" = ""
      · simp [hkey, hparse, huser] at hlisten
      by_cases hpass : Getenv e.environ "UNIFI_PASSWORD" = ""
      · simp [hkey, hparse, huser, hpass] at hlisten
      by_cases htoken : Getenv e.environ "TERRAFORM_CLOUD_API_TOKEN" = ""
      · simp [hkey, hparse, huser, hpass, htoken] at hlisten
      by_cases haddr : Getenv e.environ "TERRAFORM_CLOUD_ADDRESS" = ""
      · simp [hkey, hparse, huser, hpass, htoken, haddr] at hlisten
      cases hclient : e.NewClient (Getenv e.environ "TERRAFORM_CLOUD_ADDRESS")
          (Getenv e.environ "TERRAFORM_CLOUD_API_TOKEN") with
      | error err => simp [hkey, hparse, huser, hpass, htoken, haddr, hclient] at hlisten
      | ok client =>
        cases hcert : e.pemDecode e.tlsCert with
        | none => simp [hkey, hparse, huser, hpass, htoken, haddr, hclient, hcert] at hlisten
        | some pubBlock =>
          refine ⟨⟨Getenv e.environ "UNIFI_USERNAME", Getenv e.environ "UNIFI_PASSWORD",
            client⟩, ?_, rfl, rfl, huser, hpass⟩
          simp only [hkey, hparse, huser, hpass, htoken, haddr, hclient, hcert, if_false]
          unfold runSelect
          cases e.selected with
          | ctxDone => cases e.Shutdown <;> rfl
          | errCh err => rfl

/-- C9: when the embedded key parses and one of `UNIFI_USERNAME`,
`UNIFI_PASSWORD`, `TERRAFORM_CLOUD_API_TOKEN`, `TERRAFORM_CLOUD_ADDRESS` is
unset or empty, `run` returns the error `<name> must be provided` for the first
such name in that order, having built no client, registered no handler and
started no listener, and the process exits with status 1.  And in every world
in which the listener was started, the username and the password that the
registered handler holds are the values of the first two variables and are not
empty. -/
theorem run_missing_variable (e : World) (privBlock : Block) (privateKey : PrivateKey)
    (hkey : e.pemDecode e.tlsKey = some privBlock)
    (hparse : e.ParsePKCS8PrivateKey privBlock.Bytes = .ok privateKey)
    (hmissing : ∃ name ∈ ["UNIFI_USERNAME", "UNIFI_PASSWORD", "TERRAFORM_CLOUD_API_TOKEN",
      "TERRAFORM_CLOUD_ADDRESS"], e.environ name = none ∨ e.environ name = some "") :
    (∃ first,
      ["UNIFI_USERNAME", "UNIFI_PASSWORD", "TERRAFORM_CLOUD_API_TOKEN",
        "TERRAFORM_CLOUD_ADDRESS"].find?
          (fun name => decide (e.environ name = none ∨ e.environ name = some ""))
        = some first ∧
      (run e).outcome = .returned (some (.errorsNew (first ++ " must be provided"))) ∧
      (∀ address token, .newClient address token ∉ (run e).effects) ∧
      (∀ pattern, .handleFunc pattern ∉ (run e).effects) ∧
      (∀ addr certificate key, .goListenAndServeTLS addr certificate key ∉ (run e).effects) ∧
      (run e).mux = [] ∧
      (main e).status = 1) ∧
    (∀ (started : World) (addr : String) (certificate : List UInt8) (key : PrivateKey),
      .goListenAndServeTLS addr certificate key ∈ (run started).effects →
      ∃ env, (run started).mux = [("GET /nic/update", env)] ∧
        env.unifiUsername = Getenv started.environ "UNIFI_USERNAME" ∧
        env.unifiPassword = Getenv started.environ "UNIFI_PASSWORD" ∧
        env.unifiUsername ≠ "" ∧ env.unifiPassword ≠ "") := by
  refine ⟨?_, fun started addr certificate key h => run_listening started addr certificate key h⟩
  simp only [← Getenv_eq_empty] at hmissing ⊢
  simp only [List.mem_cons, List.mem_singleton, List.not_mem_nil, or_false,
    exists_eq_or_imp, exists_eq_left] at hmissing
  by_cases huser : Getenv e.environ "UNIFI_USERNAME" = ""
  · exact ⟨"UNIFI_USERNAME", by simp [List.find?, huser],
      by simp [main, run, hkey, hparse, huser]⟩
  by_cases hpass : Getenv e.environ "UNIFI_PASSWORD" = ""
  · exact ⟨"UNIFI_PASSWORD", by simp [List.find?, huser, hpass],
      by simp [main, run, hkey, hparse, huser, hpass]⟩
  by_cases htoken : Getenv e.environ "TERRAFORM_CLOUD_API_TOKEN" = ""
  · exact ⟨"TERRAFORM_CLOUD_API_TOKEN", by simp [List.find?, huser, hpass, htoken],
      by simp [main, run, hkey, hparse, huser, hpass, htoken]⟩
  by_cases haddr : Getenv e.environ "TERRAFORM_CLOUD_ADDRESS" = ""
  · exact ⟨"TERRAFORM_CLOUD_ADDRESS", by simp [List.find?, huser, hpass, htoken, haddr],
      by simp [main, run, hkey, hparse, huser, hpass, htoken, haddr]⟩
  · exact absurd hmissing (by simp [huser, hpass, htoken, haddr])

/-- Witness of C9: with `UNIFI_PASSWORD` empty and `TERRAFORM_CLOUD_ADDRESS`
unset the error names `UNIFI_PASSWORD`; and the handler of a server that
started holds the two non-empty credentials. -/
theorem run_missing_variable_witness :
    (run worldNoPassword).outcome
        = .returned (some (.errorsNew "UNIFI_PASSWORD must be provided")) ∧
      (main worldNoPassword).status = 1 ∧
      (run (worldServing (.errCh none) none none)).mux.map
          (fun registered => (registered.2.unifiUsername, registered.2.unifiPassword))
        = [("unifi", "hunter2")] := by
  obtain ⟨⟨first, hfirst, houtcome, -, -, -, -, hstatus⟩, hstarted⟩ :=
    run_missing_variable worldNoPassword ⟨[48, 130]⟩ ⟨[48, 130]⟩ rfl rfl
      ⟨"UNIFI_PASSWORD", by simp, Or.inr rfl⟩
  have hname : first = "UNIFI_PASSWORD" :=
    Option.some.inj (hfirst.symm.trans (by decide))
  subst hname
  obtain ⟨env, hmux, huser, hpass, -, -⟩ :=
    hstarted (worldServing (.errCh none) none none) ":8443" [48, 131] ⟨[48, 130]⟩ (by decide)
  refine ⟨houtcome, hstatus, ?_⟩
  rw [hmux]
  simp only [List.map_cons, List.map_nil, huser, hpass]
  rfl

/-- When the embedded key holds no PEM block, `run` dereferences the nil block:
it panics, before it has read any variable, and returns no error. -/
theorem run_nil_block (e : World) (hkey : e.pemDecode e.tlsKey = none) :
    (run e).outcome = .nilDereference ∧ (run e).effects = [] ∧ (run e).mux = [] := by
  simp [run, hkey]

/-- When the embedded key holds a PEM block whose bytes are not a PKCS#8 key,
`run` returns the parse error wrapped in `failed parsing tls private key: `,
before it has read any variable or started the listener. -/
theorem run_key_parse_error (e : World) (privBlock : Block) (err : GoError)
    (hkey : e.pemDecode e.tlsKey = some privBlock)
    (hparse : e.ParsePKCS8PrivateKey privBlock.Bytes = .error err) :
    (run e).outcome = .returned (some (.wrapped "failed parsing tls private key: " err)) ∧
      (run e).effects = [] ∧ (run e).mux = [] := by
  simp [run, hkey, hparse]

/-- C10, at an embedded key file without a PEM block: `run` does not return the
error `failed parsing tls private key`, nor any error; it dereferences the nil
block and panics. -/
theorem run_key_without_pem_panics :
    worldKeyWithoutPem.pemDecode worldKeyWithoutPem.tlsKey = none ∧
      (run worldKeyWithoutPem).outcome = .nilDereference ∧
      (∀ err, (run worldKeyWithoutPem).outcome ≠ .returned err) := by
  refine ⟨rfl, rfl, ?_⟩
  intro err h
  have hpanic : (run worldKeyWithoutPem).outcome = .nilDereference := rfl
  rw [hpanic] at h
  exact Outcome.noConfusion h

end UnifiDynamicDns
